import Mathlib

/-!
Verification of the crystal-structure generator (`crystal_structures` package).

The development shallowly embeds the Python sources:
  * `constants.py`   — the element registry and configuration constants;
  * `validators.py`  — `validate_input` and `validate_structure`;
  * `generator.py`   — `generate_structure`.

Python floats are modelled as real numbers; fallible code returns
`Except String`.  The behaviour of the external ASE library functions the
source calls (`ase.build.bulk`, `Atoms.repeat`, `Atoms.get_scaled_positions`,
`ase.geometry.cell_to_cellpar`, atomic numbers of chemical symbols) is
embedded from ASE's documented semantics; each such definition carries a
comment naming what it models.
-/

namespace CrystalGen

open Classical

noncomputable section

/-! ### Vectors and 3×3 matrices (row-vector convention, as in numpy) -/

/-- A 3-vector of reals (one Cartesian position, or one cell row). -/
@[ext]
structure Vec3 where
  x : ℝ
  y : ℝ
  z : ℝ

instance : Add Vec3 := ⟨fun u v => ⟨u.x + v.x, u.y + v.y, u.z + v.z⟩⟩

instance : SMul ℝ Vec3 := ⟨fun k v => ⟨k * v.x, k * v.y, k * v.z⟩⟩

@[simp] theorem Vec3.add_x (u v : Vec3) : (u + v).x = u.x + v.x := rfl

@[simp] theorem Vec3.add_y (u v : Vec3) : (u + v).y = u.y + v.y := rfl

@[simp] theorem Vec3.add_z (u v : Vec3) : (u + v).z = u.z + v.z := rfl

@[simp] theorem Vec3.smul_x (k : ℝ) (v : Vec3) : (k • v).x = k * v.x := rfl

@[simp] theorem Vec3.smul_y (k : ℝ) (v : Vec3) : (k • v).y = k * v.y := rfl

@[simp] theorem Vec3.smul_z (k : ℝ) (v : Vec3) : (k • v).z = k * v.z := rfl

/-- Dot product (`np.dot` on 3-vectors). -/
def Vec3.dot (u v : Vec3) : ℝ := u.x * v.x + u.y * v.y + u.z * v.z

/-- Sum of squared components. -/
def Vec3.normSq (v : Vec3) : ℝ := v.x * v.x + v.y * v.y + v.z * v.z

/-- Euclidean norm (`np.linalg.norm` on a 3-vector). -/
def Vec3.norm (v : Vec3) : ℝ := Real.sqrt v.normSq

/-- A 3×3 real matrix given by its rows (the ASE cell convention: rows are
the cell vectors a, b, c). -/
@[ext]
structure Mat3 where
  r0 : Vec3
  r1 : Vec3
  r2 : Vec3

/-- Determinant of a 3×3 matrix of rows. -/
def Mat3.det (M : Mat3) : ℝ :=
  M.r0.x * (M.r1.y * M.r2.z - M.r1.z * M.r2.y)
    - M.r0.y * (M.r1.x * M.r2.z - M.r1.z * M.r2.x)
    + M.r0.z * (M.r1.x * M.r2.y - M.r1.y * M.r2.x)

/-- Row vector times matrix: `v ↦ v · M` (numpy row convention; converts a
fractional coordinate into a Cartesian position). -/
def mulRow (v : Vec3) (M : Mat3) : Vec3 :=
  ⟨v.x * M.r0.x + v.y * M.r1.x + v.z * M.r2.x,
   v.x * M.r0.y + v.y * M.r1.y + v.z * M.r2.y,
   v.x * M.r0.z + v.y * M.r1.z + v.z * M.r2.z⟩

/-- Matrix inverse by the adjugate formula (junk when the determinant is 0;
the callers guard on it, mirroring `np.linalg.solve` raising `LinAlgError`). -/
def Mat3.inv (M : Mat3) : Mat3 :=
  let a := M.r0.x; let b := M.r0.y; let c := M.r0.z
  let d := M.r1.x; let e := M.r1.y; let f := M.r1.z
  let g := M.r2.x; let h := M.r2.y; let i := M.r2.z
  let dt := M.det
  ⟨⟨(e * i - f * h) / dt, (c * h - b * i) / dt, (b * f - c * e) / dt⟩,
   ⟨(f * g - d * i) / dt, (a * i - c * g) / dt, (c * d - a * f) / dt⟩,
   ⟨(d * h - e * g) / dt, (b * g - a * h) / dt, (a * e - b * d) / dt⟩⟩

/-! ### Element registry (`constants.py`, lines 11–83) -/

/-- The `ElementProperties` dataclass (`constants.py` lines 11–17). -/
structure ElementProperties where
  atomic_number : ℕ
  supported_structures : List String
  lattice_constants : List (String × ℝ)
  hcp_parameters : Option (List (String × ℝ)) := none

/-- The `ELEMENTS` table (`constants.py` lines 20–74). -/
def ELEMENTS : List (String × ElementProperties) :=
  [("Cu", ⟨29, ["fcc"], [("fcc", 3.61)], none⟩),
   ("Fe", ⟨26, ["bcc"], [("bcc", 2.87)], none⟩),
   ("Ti", ⟨22, ["hcp"], [("hcp", 2.95)], some [("c_over_a", 1.587)]⟩),
   ("Al", ⟨13, ["fcc"], [("fcc", 4.05)], none⟩),
   ("Ni", ⟨28, ["fcc"], [("fcc", 3.52)], none⟩),
   ("Pt", ⟨78, ["fcc"], [("fcc", 3.92)], none⟩),
   ("Au", ⟨79, ["fcc"], [("fcc", 4.08)], none⟩),
   ("Ag", ⟨47, ["fcc"], [("fcc", 4.09)], none⟩),
   ("Zn", ⟨30, ["hcp"], [("hcp", 2.66)], some [("c_over_a", 1.856)]⟩),
   ("Mg", ⟨12, ["hcp"], [("hcp", 3.21)], some [("c_over_a", 1.624)]⟩)]

/-- The `VALID_STRUCTURES` list (`constants.py` line 77). -/
def VALID_STRUCTURES : List String := ["fcc", "bcc", "hcp"]

/-- Atomic number that the ASE library assigns to a chemical symbol
(index of the symbol in ASE's periodic table, restricted to the
symbols appearing in `ELEMENTS`; `ase.build.bulk` stamps this number on
every atom it creates). -/
def aseAtomicNumber (symbol : String) : ℕ :=
  match List.lookup symbol
      [("Cu", 29), ("Fe", 26), ("Ti", 22), ("Al", 13), ("Ni", 28),
       ("Pt", 78), ("Au", 79), ("Ag", 47), ("Zn", 30), ("Mg", 12)] with
  | some z => z
  | none => 0

/-! ### ASE `Atoms` objects and the library operations the source uses -/

/-- The slice of an ASE `Atoms` object the program observes: Cartesian
positions, per-atom atomic numbers, the 3×3 cell of row vectors, and the
periodic-boundary flags. -/
structure Atoms where
  positions : List Vec3
  numbers : List ℕ
  cell : Mat3
  pbc : Bool × Bool × Bool

/-- Model of `ase.Atoms(..., scaled_positions=..., cell=..., pbc=True)`: the scaled
(fractional) positions are converted to Cartesian against the cell, and
every atom carries the atomic number of `element`. -/
def mkAtomsScaled (element : String) (scaled : List Vec3) (cell : Mat3) : Atoms :=
  { positions := scaled.map (fun f => mulRow f cell)
    numbers := scaled.map (fun _ => aseAtomicNumber element)
    cell := cell
    pbc := (true, true, true) }

/-- Scaled basis of the conventional cubic FCC cell built by
`bulk(element, 'fcc', a=a, cubic=True)`. -/
def fccScaled : List Vec3 :=
  [⟨0, 0, 0⟩, ⟨0, 1/2, 1/2⟩, ⟨1/2, 0, 1/2⟩, ⟨1/2, 1/2, 0⟩]

/-- Scaled basis of the conventional cubic BCC cell built by
`bulk(element, 'bcc', a=a, cubic=True)`. -/
def bccScaled : List Vec3 := [⟨0, 0, 0⟩, ⟨1/2, 1/2, 1/2⟩]

/-- Scaled basis of the HCP cell built by `bulk(element, 'hcp', a=a, c=c)`. -/
def hcpScaled : List Vec3 := [⟨0, 0, 0⟩, ⟨1/3, 2/3, 1/2⟩]

/-- Cubic cell matrix `diag(a, a, a)`. -/
def cubicCell (a : ℝ) : Mat3 := ⟨⟨a, 0, 0⟩, ⟨0, a, 0⟩, ⟨0, 0, a⟩⟩

/-- Hexagonal cell matrix used by `bulk(..., 'hcp', a=a, c=c)`:
rows `(a,0,0)`, `(-a/2, a·√3/2, 0)`, `(0,0,c)`. -/
def hcpCell (a c : ℝ) : Mat3 :=
  ⟨⟨a, 0, 0⟩, ⟨-(a / 2), a * Real.sqrt 3 / 2, 0⟩, ⟨0, 0, c⟩⟩

/-- Concatenation of the lists `f o` over `os` in order (the shape of the
nested Python loops in ASE's `Atoms.__imul__`). -/
def concatMapList {α β : Type} (os : List α) (f : α → List β) : List β :=
  match os with
  | [] => []
  | o :: rest => f o ++ concatMapList rest f

/-- The integer offsets `(m0, m1, m2)` enumerated by `Atoms.repeat`, in the
source's loop order: `m0` outermost, then `m1`, then `m2`. -/
def offsets (m : ℤ × ℤ × ℤ) : List (ℕ × ℕ × ℕ) :=
  concatMapList (List.range m.1.toNat) fun i =>
    concatMapList (List.range m.2.1.toNat) fun j =>
      (List.range m.2.2.toNat).map fun k => (i, j, k)

/-- The Cartesian translation `m0·a + m1·b + m2·c` for an integer offset. -/
def offsetVec (M : Mat3) (o : ℕ × ℕ × ℕ) : Vec3 :=
  (o.1 : ℝ) • M.r0 + (o.2.1 : ℝ) • M.r1 + (o.2.2 : ℝ) • M.r2

/-- Model of `atoms.repeat(m)` (ASE `Atoms.__imul__`): for each offset block the
basis positions are shifted by the integer combination of the unit-cell
rows, the atomic-number array is tiled, and each cell row is scaled by the
corresponding replication count. -/
def Atoms.repeatAtoms (atoms : Atoms) (m : ℤ × ℤ × ℤ) : Atoms :=
  { positions := concatMapList (offsets m) fun o =>
      atoms.positions.map (fun p => p + offsetVec atoms.cell o)
    numbers := concatMapList (offsets m) fun _ => atoms.numbers
    cell := ⟨(m.1 : ℝ) • atoms.cell.r0, (m.2.1 : ℝ) • atoms.cell.r1,
             (m.2.2 : ℝ) • atoms.cell.r2⟩
    pbc := atoms.pbc }

/-- Reduction applied by `Atoms.get_scaled_positions` (default `wrap=True`):
along each periodic direction the fractional coordinate is taken mod 1
(`fractional[:, i] %= 1.0`, exact-arithmetic form). -/
def wrapFrac (pbc : Bool × Bool × Bool) (v : Vec3) : Vec3 :=
  ⟨if pbc.1 then Int.fract v.x else v.x,
   if pbc.2.1 then Int.fract v.y else v.y,
   if pbc.2.2 then Int.fract v.z else v.z⟩

/-- Model of `atoms.get_scaled_positions()` (ASE, default `wrap=True`): solves
`fractional · cell = position` and wraps along periodic directions.  A
singular cell makes `np.linalg.solve` raise `LinAlgError` (ASE's completion
of all-zero cell rows is not modelled; the cells of interest have no zero
row). -/
def Atoms.get_scaled_positions (atoms : Atoms) : Except String (List Vec3) :=
  if atoms.cell.det = 0 then .error "LinAlgError: Singular matrix"
  else .ok (atoms.positions.map fun p => wrapFrac atoms.pbc (mulRow p atoms.cell.inv))

/-- One angle (in degrees) computed by `ase.geometry.cell_to_cellpar`:
`180/π · arccos(u·v / (|u||v|))` when the product of norms exceeds `1e-16`,
else `90.0`. -/
def angleDeg (u v : Vec3) : ℝ :=
  if u.norm * v.norm > 1e-16 then
    180 / Real.pi * Real.arccos (u.dot v / (u.norm * v.norm))
  else 90

/-- Model of `ase.geometry.cell_to_cellpar`: the three row lengths and the three
inter-axis angles in degrees (angle `i` is between rows `i-1` and `i-2`,
indices mod 3). -/
def cell_to_cellpar (M : Mat3) : (ℝ × ℝ × ℝ) × (ℝ × ℝ × ℝ) :=
  ((M.r0.norm, M.r1.norm, M.r2.norm),
   (angleDeg M.r2 M.r1, angleDeg M.r0 M.r2, angleDeg M.r1 M.r0))

/-! ### `validators.py` -/

/-- Python `str.lower()` (ASCII, which covers every string the program
compares): lower-case each character. -/
def strLower (s : String) : String := ⟨s.data.map Char.toLower⟩

/-- Embedding of `validate_input` (`validators.py` lines 15–74).  The `isinstance` type
checks of the source hold by the types of this embedding.  Value checks, in
source order: element known, structure type valid, structure supported for
the element, positive lattice constant, positive supercell sizes, and the
HCP c/a conditions. -/
def validate_input (element structure_type : String) (lattice_constant : ℝ)
    (size : ℤ × ℤ × ℤ) (c_over_a : Option ℝ) : Except String Unit :=
  match List.lookup element ELEMENTS with
  | none => .error ("Unsupported element: " ++ element)
  | some element_props =>
    let st := strLower structure_type
    if st ∈ VALID_STRUCTURES then
      if st ∈ element_props.supported_structures then
        if lattice_constant ≤ 0 then
          .error "Invalid lattice constant. Must be positive"
        else if size.1 ≤ 0 ∨ size.2.1 ≤ 0 ∨ size.2.2 ≤ 0 then
          .error "Invalid supercell size. All dimensions must be positive"
        else if st = "hcp" then
          match c_over_a with
          | none =>
            if element_props.hcp_parameters = none then
              .error ("No default c/a ratio for " ++ element ++ ". Please provide one.")
            else .ok ()
          | some r =>
            if r ≤ 0 then .error "HCP structures require a positive c/a ratio"
            else .ok ()
        else .ok ()
      else .error ("Structure type " ++ st ++ " is not supported for element " ++ element)
    else .error ("Invalid structure type: " ++ st)

/-- Embedding of `validate_structure` (`validators.py` lines 76–97): wrapped fractional
coordinates must lie in `[0, 1]` componentwise, then all cell lengths must
be positive and all cell angles at most `180°` in absolute value. -/
def validate_structure (atoms : Atoms) : Except String Unit :=
  match atoms.get_scaled_positions with
  | .error m => .error m
  | .ok scaled =>
    if ∀ v ∈ scaled, 0 ≤ v.x ∧ v.x ≤ 1 ∧ 0 ≤ v.y ∧ v.y ≤ 1 ∧ 0 ≤ v.z ∧ v.z ≤ 1 then
      if (cell_to_cellpar atoms.cell).1.1 ≤ 0 ∨ (cell_to_cellpar atoms.cell).1.2.1 ≤ 0 ∨
          (cell_to_cellpar atoms.cell).1.2.2 ≤ 0 then
        .error "Invalid cell parameters: some lengths are zero or negative"
      else if |(cell_to_cellpar atoms.cell).2.1| > 180 ∨
          |(cell_to_cellpar atoms.cell).2.2.1| > 180 ∨
          |(cell_to_cellpar atoms.cell).2.2.2| > 180 then
        .error "Invalid cell parameters: angles must be between 0 and 180 degrees"
      else .ok ()
    else .error "Some atoms are outside the unit cell"

/-! ### `generator.py` -/

/-- The lattice-constant resolution step of `generate_structure`
(`generator.py` lines 56–59): a caller-supplied value wins, otherwise the
registry default for the structure type, otherwise an error. -/
def resolveLattice (element_props : ElementProperties) (element st : String)
    (lattice_constant : Option ℝ) : Except String ℝ :=
  match lattice_constant with
  | some a => .ok a
  | none =>
    match List.lookup st element_props.lattice_constants with
    | some a => .ok a
    | none => .error ("No default lattice constant for " ++ element ++ " " ++ st)

/-- The c/a resolution step of `generate_structure` (lines 61–64): for an
HCP request with no caller-supplied ratio, fall back to the registry
default, when present. -/
def resolveCoverA (element_props : ElementProperties) (st : String)
    (c_over_a : Option ℝ) : Option ℝ :=
  if st = "hcp" ∧ c_over_a = none then
    match element_props.hcp_parameters with
    | some ps => List.lookup "c_over_a" ps
    | none => none
  else c_over_a

/-- The pre-construction phase of `generate_structure` (`generator.py`
lines 50–67): normalise the structure type, look the element up
(`ELEMENTS[element]`, a `KeyError` on a miss), resolve the lattice constant
and the c/a ratio, and run `validate_input`.  Returns the resolved
`(lattice_constant, c_over_a)`. -/
def prepare (element structure_type : String) (lattice_constant : Option ℝ)
    (size : ℤ × ℤ × ℤ) (c_over_a : Option ℝ) : Except String (ℝ × Option ℝ) :=
  match List.lookup element ELEMENTS with
  | none => .error ("KeyError: " ++ element)
  | some element_props =>
    match resolveLattice element_props element (strLower structure_type) lattice_constant with
    | .error m => .error m
    | .ok a =>
      match validate_input element (strLower structure_type) a size
          (resolveCoverA element_props (strLower structure_type) c_over_a) with
      | .error m => .error m
      | .ok _ => .ok (a, resolveCoverA element_props (strLower structure_type) c_over_a)

/-- Construction of the base structure (`generator.py` lines 71–84):
dispatch on the normalised structure type to `ase.build.bulk`, with the HCP
`c` parameter computed as `lattice_constant * c_over_a`. -/
def buildAtoms (element st : String) (a : ℝ) (r : Option ℝ) : Except String Atoms :=
  if st = "hcp" then
    match r with
    | none => .error "c/a ratio is required for HCP structures"
    | some rv => .ok (mkAtomsScaled element hcpScaled (hcpCell a (a * rv)))
  else if st = "fcc" then .ok (mkAtomsScaled element fccScaled (cubicCell a))
  else if st = "bcc" then .ok (mkAtomsScaled element bccScaled (cubicCell a))
  else .error ("Unknown structure: " ++ st)

/-- Metadata block of the returned record (`generator.py` lines 98–105). -/
structure Metadata where
  element : String
  structure_type : String
  lattice_constant : ℝ
  c_over_a : Option ℝ
  num_atoms : ℕ
  supercell_size : ℤ × ℤ × ℤ

/-- The JSON-compatible record returned by `generate_structure`
(`generator.py` lines 93–106). -/
structure StructureData where
  positions : List Vec3
  numbers : List ℕ
  cell : Mat3
  pbc : Bool × Bool × Bool
  metadata : Metadata

/-- Packaging step of `generate_structure` (lines 93–106). -/
def assemble (element st : String) (a : ℝ) (r : Option ℝ) (size : ℤ × ℤ × ℤ)
    (atoms : Atoms) : StructureData :=
  { positions := atoms.positions
    numbers := atoms.numbers
    cell := atoms.cell
    pbc := atoms.pbc
    metadata :=
      { element := element
        structure_type := st
        lattice_constant := a
        c_over_a := if st = "hcp" then r else none
        num_atoms := atoms.positions.length
        supercell_size := size } }

/-- Embedding of `generate_structure` (`generator.py` lines 20–111): prepare, build the
base cell, replicate it, validate the result, and package it. -/
def generate_structure (element structure_type : String)
    (lattice_constant : Option ℝ) (size : ℤ × ℤ × ℤ) (c_over_a : Option ℝ) :
    Except String StructureData :=
  match prepare element structure_type lattice_constant size c_over_a with
  | .error m => .error m
  | .ok (a, r) =>
    match buildAtoms element (strLower structure_type) a r with
    | .error m => .error m
    | .ok atoms0 =>
      let atoms := atoms0.repeatAtoms size
      match validate_structure atoms with
      | .error m => .error m
      | .ok _ => .ok (assemble element (strLower structure_type) a r size atoms)

/-- Basis-atom count per lattice family (spec: FCC 4, BCC 2, HCP 2). -/
def basisCount (st : String) : ℕ :=
  if st = "fcc" then 4 else if st = "bcc" then 2 else if st = "hcp" then 2 else 0

/-- Numbers list of a generation result (`[]` on failure). -/
def resultNumbers (x : Except String StructureData) : List ℕ :=
  match x with
  | .ok s => s.numbers
  | .error _ => []

/-- Metadata c/a of a generation result (`none` on failure). -/
def resultCoverA (x : Except String StructureData) : Option ℝ :=
  match x with
  | .ok s => s.metadata.c_over_a
  | .error _ => none

/-- Ratio of the norms of cell rows 2 and 0 of a generation result
(0 on failure). -/
def resultRowRatio (x : Except String StructureData) : ℝ :=
  match x with
  | .ok s => s.cell.r2.norm / s.cell.r0.norm
  | .error _ => 0

/-- Positions list of a generation result (`[]` on failure). -/
def resultPositions (x : Except String StructureData) : List Vec3 :=
  match x with
  | .ok s => s.positions
  | .error _ => []

/-! ### Concrete values used by the witnesses -/

/-- The atoms of a `Cu`/`fcc` generation with replication `(1,1,1)`. -/
def cuAtoms : Atoms := (mkAtomsScaled "Cu" fccScaled (cubicCell 3.61)).repeatAtoms (1, 1, 1)

/-- The record returned for `Cu`/`fcc` at replication `(1,1,1)`. -/
def cuRes : StructureData := assemble "Cu" "fcc" 3.61 none (1, 1, 1) cuAtoms

/-- The atoms of a `Ti`/`hcp` generation with replication `(1,1,2)`. -/
def tiAtoms112 : Atoms :=
  (mkAtomsScaled "Ti" hcpScaled (hcpCell 2.95 (2.95 * 1.587))).repeatAtoms (1, 1, 2)

/-- The record returned for `Ti`/`hcp` at replication `(1,1,2)`. -/
def tiRes112 : StructureData := assemble "Ti" "hcp" 2.95 (some 1.587) (1, 1, 2) tiAtoms112

/-- The atoms of a `Ti`/`hcp` generation with replication `(1,1,1)`. -/
def tiAtoms111 : Atoms :=
  (mkAtomsScaled "Ti" hcpScaled (hcpCell 2.95 (2.95 * 1.587))).repeatAtoms (1, 1, 1)

/-- The record returned for `Ti`/`hcp` at replication `(1,1,1)`. -/
def tiRes111 : StructureData := assemble "Ti" "hcp" 2.95 (some 1.587) (1, 1, 1) tiAtoms111

/-- A fully periodic one-atom structure over the unit cube whose atom sits
outside the cell: its fractional x-coordinate is 3/2. -/
def outsideAtoms : Atoms := ⟨[⟨3/2, 0, 0⟩], [29], cubicCell 1, (true, true, true)⟩

/-- A structure whose cell has two equal (hence parallel) rows: the angle
the cell parameters derive for them is 0°, and the cell is singular. -/
def parallelAtoms : Atoms :=
  ⟨[⟨0, 0, 0⟩], [29], ⟨⟨1, 0, 0⟩, ⟨1, 0, 0⟩, ⟨0, 0, 1⟩⟩, (true, true, true)⟩

end

/-! ### Generic list lemmas for the tiling loop -/

theorem concatMapList_length {α β : Type} (os : List α) (f : α → List β) (L : ℕ)
    (h : ∀ a, (f a).length = L) : (concatMapList os f).length = os.length * L := by
  induction os with
  | nil => simp [concatMapList]
  | cons o rest ih =>
    simp only [concatMapList, List.length_append, List.length_cons, h o, ih]
    ring

theorem concatMapList_mem {α β : Type} {os : List α} {f : α → List β} {b : β}
    (h : b ∈ concatMapList os f) : ∃ a ∈ os, b ∈ f a := by
  induction os with
  | nil => simp [concatMapList] at h
  | cons o rest ih =>
    simp only [concatMapList, List.mem_append] at h
    rcases h with h | h
    · exact ⟨o, List.mem_cons_self o rest, h⟩
    · obtain ⟨a, ha, hb⟩ := ih h
      exact ⟨a, List.mem_cons_of_mem o ha, hb⟩

theorem offsets_length (m : ℤ × ℤ × ℤ) :
    (offsets m).length = m.1.toNat * (m.2.1.toNat * m.2.2.toNat) := by
  unfold offsets
  rw [concatMapList_length _ _ (m.2.1.toNat * m.2.2.toNat)]
  · rw [List.length_range]
  · intro i
    rw [concatMapList_length _ _ m.2.2.toNat]
    · rw [List.length_range]
    · intro j
      rw [List.length_map, List.length_range]

theorem repeatAtoms_positions_length (A : Atoms) (m : ℤ × ℤ × ℤ) :
    (A.repeatAtoms m).positions.length
      = m.1.toNat * (m.2.1.toNat * m.2.2.toNat) * A.positions.length := by
  show (concatMapList (offsets m) _).length = _
  rw [concatMapList_length _ _ A.positions.length (fun o => List.length_map _ _),
    offsets_length]

theorem repeatAtoms_numbers_length (A : Atoms) (m : ℤ × ℤ × ℤ) :
    (A.repeatAtoms m).numbers.length
      = m.1.toNat * (m.2.1.toNat * m.2.2.toNat) * A.numbers.length := by
  show (concatMapList (offsets m) _).length = _
  rw [concatMapList_length _ _ A.numbers.length (fun _ => rfl), offsets_length]

theorem repeatAtoms_numbers_mem {A : Atoms} {m : ℤ × ℤ × ℤ} {z : ℕ}
    (h : z ∈ (A.repeatAtoms m).numbers) : z ∈ A.numbers := by
  obtain ⟨o, _, hz⟩ := concatMapList_mem h
  exact hz

/-! ### Determinant and norm lemmas -/

theorem det_scaled (M : Mat3) (k0 k1 k2 : ℝ) :
    Mat3.det ⟨k0 • M.r0, k1 • M.r1, k2 • M.r2⟩ = k0 * k1 * k2 * M.det := by
  simp only [Mat3.det, Vec3.smul_x, Vec3.smul_y, Vec3.smul_z]
  ring

theorem repeatAtoms_cell (A : Atoms) (m : ℤ × ℤ × ℤ) :
    (A.repeatAtoms m).cell
      = ⟨(m.1 : ℝ) • A.cell.r0, (m.2.1 : ℝ) • A.cell.r1, (m.2.2 : ℝ) • A.cell.r2⟩ := rfl

theorem repeatAtoms_cell_det (A : Atoms) (m : ℤ × ℤ × ℤ) :
    (A.repeatAtoms m).cell.det = (m.1 : ℝ) * (m.2.1 : ℝ) * (m.2.2 : ℝ) * A.cell.det := by
  rw [repeatAtoms_cell]
  exact det_scaled _ _ _ _

theorem det_cubicCell (a : ℝ) : (cubicCell a).det = a ^ 3 := by
  simp only [Mat3.det, cubicCell]
  ring

theorem det_hcpCell (a c : ℝ) : (hcpCell a c).det = a ^ 2 * c * Real.sqrt 3 / 2 := by
  simp only [Mat3.det, hcpCell]
  ring

theorem r0_ne_zero_of_det {M : Mat3} (h : M.det ≠ 0) : M.r0 ≠ ⟨0, 0, 0⟩ := by
  intro h0
  apply h
  simp only [Mat3.det, h0]
  ring

theorem r1_ne_zero_of_det {M : Mat3} (h : M.det ≠ 0) : M.r1 ≠ ⟨0, 0, 0⟩ := by
  intro h0
  apply h
  simp only [Mat3.det, h0]
  ring

theorem r2_ne_zero_of_det {M : Mat3} (h : M.det ≠ 0) : M.r2 ≠ ⟨0, 0, 0⟩ := by
  intro h0
  apply h
  simp only [Mat3.det, h0]
  ring

theorem normSq_pos_of_ne_zero {v : Vec3} (h : v ≠ ⟨0, 0, 0⟩) : 0 < v.normSq := by
  by_contra hle
  push_neg at hle
  unfold Vec3.normSq at hle
  have hx := mul_self_nonneg v.x
  have hy := mul_self_nonneg v.y
  have hz := mul_self_nonneg v.z
  have hx0 : v.x = 0 := by nlinarith
  have hy0 : v.y = 0 := by nlinarith
  have hz0 : v.z = 0 := by nlinarith
  exact h (Vec3.ext hx0 hy0 hz0)

theorem norm_pos_of_ne_zero {v : Vec3} (h : v ≠ ⟨0, 0, 0⟩) : 0 < v.norm :=
  Real.sqrt_pos.mpr (normSq_pos_of_ne_zero h)

theorem angleDeg_abs_le (u v : Vec3) : |angleDeg u v| ≤ 180 := by
  unfold angleDeg
  split
  · have h1 : 0 ≤ Real.arccos (u.dot v / (u.norm * v.norm)) := Real.arccos_nonneg _
    have h2 : Real.arccos (u.dot v / (u.norm * v.norm)) ≤ Real.pi := Real.arccos_le_pi _
    have hpi : 0 < Real.pi := Real.pi_pos
    rw [abs_of_nonneg (by positivity)]
    calc 180 / Real.pi * Real.arccos (u.dot v / (u.norm * v.norm))
        ≤ 180 / Real.pi * Real.pi := by
          exact mul_le_mul_of_nonneg_left h2 (by positivity)
      _ = 180 := by field_simp
  · norm_num

/-! ### Behaviour of the structure validator -/

theorem get_scaled_positions_of_det_ne {atoms : Atoms} (hdet : atoms.cell.det ≠ 0) :
    atoms.get_scaled_positions
      = .ok (atoms.positions.map fun p => wrapFrac atoms.pbc (mulRow p atoms.cell.inv)) := by
  unfold Atoms.get_scaled_positions
  rw [if_neg hdet]

/-- For a fully periodic structure over a non-degenerate cell the validator
always succeeds: every wrapped fractional coordinate lies in `[0, 1)`, the
row norms are positive, and the angles are at most `180°` in absolute
value. -/
theorem validate_structure_ok_of_periodic (atoms : Atoms)
    (hpbc : atoms.pbc = (true, true, true)) (hdet : atoms.cell.det ≠ 0) :
    validate_structure atoms = .ok () := by
  unfold validate_structure
  simp only [get_scaled_positions_of_det_ne hdet]
  have hbound : ∀ v ∈ atoms.positions.map
      (fun p => wrapFrac atoms.pbc (mulRow p atoms.cell.inv)),
      0 ≤ v.x ∧ v.x ≤ 1 ∧ 0 ≤ v.y ∧ v.y ≤ 1 ∧ 0 ≤ v.z ∧ v.z ≤ 1 := by
    intro v hv
    rcases List.mem_map.mp hv with ⟨p, _, rfl⟩
    rw [hpbc]
    unfold wrapFrac
    simp only [if_pos rfl]
    exact ⟨Int.fract_nonneg _, (Int.fract_lt_one _).le,
      Int.fract_nonneg _, (Int.fract_lt_one _).le,
      Int.fract_nonneg _, (Int.fract_lt_one _).le⟩
  rw [if_pos hbound]
  have h0 : 0 < atoms.cell.r0.norm := norm_pos_of_ne_zero (r0_ne_zero_of_det hdet)
  have h1 : 0 < atoms.cell.r1.norm := norm_pos_of_ne_zero (r1_ne_zero_of_det hdet)
  have h2 : 0 < atoms.cell.r2.norm := norm_pos_of_ne_zero (r2_ne_zero_of_det hdet)
  rw [if_neg, if_neg]
  · push_neg
    exact ⟨angleDeg_abs_le _ _, angleDeg_abs_le _ _, angleDeg_abs_le _ _⟩
  · push_neg
    exact ⟨h0, h1, h2⟩

/-! ### Inversion lemmas for the generator pipeline -/

theorem validate_input_ok_pos {element st : String} {a : ℝ} {size : ℤ × ℤ × ℤ}
    {r : Option ℝ} (h : validate_input element st a size r = .ok ()) :
    0 < a ∧ 0 < size.1 ∧ 0 < size.2.1 ∧ 0 < size.2.2 := by
  unfold validate_input at h
  cases hel : List.lookup element ELEMENTS with
  | none => rw [hel] at h; simp at h
  | some props =>
    simp only [hel] at h
    split_ifs at h with hv hsup hl hsz hh
    all_goals try simp at h
    all_goals push_neg at hl hsz
    all_goals exact ⟨hl, hsz.1, hsz.2.1, hsz.2.2⟩

theorem validate_input_ok_hcp_pos {element : String} {a : ℝ} {size : ℤ × ℤ × ℤ}
    {rv : ℝ} (h : validate_input element "hcp" a size (some rv) = .ok ()) : 0 < rv := by
  unfold validate_input at h
  cases hel : List.lookup element ELEMENTS with
  | none => rw [hel] at h; simp at h
  | some props =>
    simp only [hel, show strLower "hcp" = "hcp" from rfl] at h
    split_ifs at h <;> simp_all

theorem prepare_ok_inv {element structure_type : String} {lc : Option ℝ}
    {size : ℤ × ℤ × ℤ} {c0 : Option ℝ} {a : ℝ} {r : Option ℝ}
    (h : prepare element structure_type lc size c0 = .ok (a, r)) :
    ∃ props, List.lookup element ELEMENTS = some props ∧
      resolveLattice props element (strLower structure_type) lc = .ok a ∧
      r = resolveCoverA props (strLower structure_type) c0 ∧
      validate_input element (strLower structure_type) a size r = .ok () := by
  unfold prepare at h
  cases hel : List.lookup element ELEMENTS with
  | none => rw [hel] at h; simp at h
  | some props =>
    simp only [hel] at h
    cases hres : resolveLattice props element (strLower structure_type) lc with
    | error m => rw [hres] at h; simp at h
    | ok a0 =>
      simp only [hres] at h
      cases hvi : validate_input element (strLower structure_type) a0 size
          (resolveCoverA props (strLower structure_type) c0) with
      | error m => rw [hvi] at h; simp at h
      | ok u =>
        cases u
        simp only [hvi, Except.ok.injEq, Prod.mk.injEq] at h
        obtain ⟨ha, hr⟩ := h
        subst ha
        subst hr
        exact ⟨props, rfl, hres, rfl, hvi⟩

theorem buildAtoms_ok_inv {element st : String} {a : ℝ} {r : Option ℝ} {A : Atoms}
    (h : buildAtoms element st a r = .ok A) :
    (st = "hcp" ∧ ∃ rv, r = some rv ∧ A = mkAtomsScaled element hcpScaled (hcpCell a (a * rv)))
      ∨ (st = "fcc" ∧ A = mkAtomsScaled element fccScaled (cubicCell a))
      ∨ (st = "bcc" ∧ A = mkAtomsScaled element bccScaled (cubicCell a)) := by
  unfold buildAtoms at h
  split_ifs at h with h1 h2 h3
  · cases r with
    | none => simp at h
    | some rv =>
      simp only [Except.ok.injEq] at h
      exact Or.inl ⟨h1, rv, rfl, h.symm⟩
  · simp only [Except.ok.injEq] at h
    exact Or.inr (Or.inl ⟨h2, h.symm⟩)
  · simp only [Except.ok.injEq] at h
    exact Or.inr (Or.inr ⟨h3, h.symm⟩)

theorem mkAtomsScaled_pbc (element : String) (scaled : List Vec3) (cell : Mat3) :
    (mkAtomsScaled element scaled cell).pbc = (true, true, true) := rfl

theorem generate_ok_inv {element structure_type : String} {lc : Option ℝ}
    {size : ℤ × ℤ × ℤ} {c0 : Option ℝ} {s : StructureData}
    (h : generate_structure element structure_type lc size c0 = .ok s) :
    ∃ a r atoms0, prepare element structure_type lc size c0 = .ok (a, r) ∧
      buildAtoms element (strLower structure_type) a r = .ok atoms0 ∧
      validate_structure (atoms0.repeatAtoms size) = .ok () ∧
      s = assemble element (strLower structure_type) a r size (atoms0.repeatAtoms size) := by
  unfold generate_structure at h
  cases hp : prepare element structure_type lc size c0 with
  | error m => rw [hp] at h; simp at h
  | ok pr =>
    obtain ⟨a, r⟩ := pr
    simp only [hp] at h
    cases hb : buildAtoms element (strLower structure_type) a r with
    | error m =>
      rw [hb] at h
      simp at h
    | ok A =>
      simp only [hb] at h
      cases hv : validate_structure (A.repeatAtoms size) with
      | error m =>
        rw [hv] at h
        simp at h
      | ok u =>
        cases u
        simp only [hv, Except.ok.injEq] at h
        exact ⟨a, r, A, rfl, hb, hv, h.symm⟩

theorem generate_eq_of {element structure_type : String} {lc : Option ℝ}
    {size : ℤ × ℤ × ℤ} {c0 : Option ℝ} {a : ℝ} {r : Option ℝ} {A : Atoms}
    (hp : prepare element structure_type lc size c0 = .ok (a, r))
    (hb : buildAtoms element (strLower structure_type) a r = .ok A)
    (hpbc : A.pbc = (true, true, true))
    (hdet : (A.repeatAtoms size).cell.det ≠ 0) :
    generate_structure element structure_type lc size c0
      = .ok (assemble element (strLower structure_type) a r size (A.repeatAtoms size)) := by
  unfold generate_structure
  simp only [hp, hb]
  rw [validate_structure_ok_of_periodic (A.repeatAtoms size) hpbc hdet]

/-! ### Concrete evaluations (success paths used by the witnesses) -/

theorem prepare_cu : prepare "Cu" "fcc" none (1, 1, 1) none = .ok (3.61, none) := by
  simp +decide [prepare, resolveLattice, resolveCoverA, validate_input, ELEMENTS,
    VALID_STRUCTURES, List.lookup, show strLower "fcc" = "fcc" from rfl]
  norm_num

theorem buildAtoms_cu : buildAtoms "Cu" (strLower "fcc") 3.61 none
    = .ok (mkAtomsScaled "Cu" fccScaled (cubicCell 3.61)) := by
  simp +decide [buildAtoms, show strLower "fcc" = "fcc" from rfl]

theorem mkAtomsScaled_cell (element : String) (scaled : List Vec3) (cell : Mat3) :
    (mkAtomsScaled element scaled cell).cell = cell := rfl

theorem cuAtoms_det : cuAtoms.cell.det ≠ 0 := by
  unfold cuAtoms
  rw [repeatAtoms_cell_det, mkAtomsScaled_cell, det_cubicCell]
  norm_num

theorem hgen_cu : generate_structure "Cu" "fcc" none (1, 1, 1) none = .ok cuRes :=
  generate_eq_of prepare_cu buildAtoms_cu rfl cuAtoms_det

theorem prepare_ti112 : prepare "Ti" "hcp" none (1, 1, 2) none = .ok (2.95, some 1.587) := by
  simp +decide [prepare, resolveLattice, resolveCoverA, validate_input, ELEMENTS,
    VALID_STRUCTURES, List.lookup, show strLower "hcp" = "hcp" from rfl]
  norm_num

theorem buildAtoms_ti : buildAtoms "Ti" (strLower "hcp") 2.95 (some 1.587)
    = .ok (mkAtomsScaled "Ti" hcpScaled (hcpCell 2.95 (2.95 * 1.587))) := by
  simp +decide [buildAtoms, show strLower "hcp" = "hcp" from rfl]

theorem sqrt_three_pos : 0 < Real.sqrt 3 := Real.sqrt_pos.mpr (by norm_num)

theorem tiAtoms112_det : tiAtoms112.cell.det ≠ 0 := by
  unfold tiAtoms112
  rw [repeatAtoms_cell_det, mkAtomsScaled_cell, det_hcpCell]
  have h3 := sqrt_three_pos
  have hpos : (0:ℝ) < (2.95:ℝ) ^ 2 * (2.95 * 1.587) * Real.sqrt 3 / 2 := by positivity
  norm_num

theorem hgen_ti112 : generate_structure "Ti" "hcp" none (1, 1, 2) none = .ok tiRes112 :=
  generate_eq_of prepare_ti112 buildAtoms_ti rfl tiAtoms112_det

theorem prepare_ti111 : prepare "Ti" "hcp" none (1, 1, 1) none = .ok (2.95, some 1.587) := by
  simp +decide [prepare, resolveLattice, resolveCoverA, validate_input, ELEMENTS,
    VALID_STRUCTURES, List.lookup, show strLower "hcp" = "hcp" from rfl]
  norm_num

theorem tiAtoms111_det : tiAtoms111.cell.det ≠ 0 := by
  unfold tiAtoms111
  rw [repeatAtoms_cell_det, mkAtomsScaled_cell, det_hcpCell]
  have h3 := sqrt_three_pos
  have hpos : (0:ℝ) < (2.95:ℝ) ^ 2 * (2.95 * 1.587) * Real.sqrt 3 / 2 := by positivity
  norm_num

theorem hgen_ti111 : generate_structure "Ti" "hcp" none (1, 1, 1) none = .ok tiRes111 :=
  generate_eq_of prepare_ti111 buildAtoms_ti rfl tiAtoms111_det

/-! ### Further helper lemmas for the claims -/

theorem prepare_error_gen {element structure_type : String} {lc : Option ℝ}
    {size : ℤ × ℤ × ℤ} {c0 : Option ℝ} {m : String}
    (h : prepare element structure_type lc size c0 = .error m) :
    generate_structure element structure_type lc size c0 = .error m := by
  unfold generate_structure
  simp only [h]

theorem validate_input_hcp_none_error {element : String} {props : ElementProperties}
    {a : ℝ} {size : ℤ × ℤ × ℤ}
    (hel : List.lookup element ELEMENTS = some props)
    (hnone : props.hcp_parameters = none) :
    ∃ m, validate_input element "hcp" a size none = .error m := by
  unfold validate_input
  simp only [hel, show strLower "hcp" = "hcp" from rfl, hnone]
  split_ifs <;> exact ⟨_, rfl⟩

theorem validate_input_bad_size_error {element st : String} {a : ℝ}
    {size : ℤ × ℤ × ℤ} {r : Option ℝ}
    (hn : size.1 ≤ 0 ∨ size.2.1 ≤ 0 ∨ size.2.2 ≤ 0) :
    ∃ m, validate_input element st a size r = .error m := by
  unfold validate_input
  cases hel : List.lookup element ELEMENTS with
  | none =>
    simp only [hel]
    exact ⟨_, rfl⟩
  | some props =>
    simp only [hel]
    split_ifs with hv hsup hl hsz hh
    all_goals try exact ⟨_, rfl⟩
    all_goals exact absurd hn (by assumption)

theorem prepare_bad_size {element structure_type : String} {lc : Option ℝ}
    {c0 : Option ℝ} {size : ℤ × ℤ × ℤ}
    (hn : size.1 ≤ 0 ∨ size.2.1 ≤ 0 ∨ size.2.2 ≤ 0) :
    ∃ m, prepare element structure_type lc size c0 = .error m := by
  unfold prepare
  cases hel : List.lookup element ELEMENTS with
  | none =>
    simp only [hel]
    exact ⟨_, rfl⟩
  | some props =>
    simp only [hel]
    cases hres : resolveLattice props element (strLower structure_type) lc with
    | error m =>
      exact ⟨m, rfl⟩
    | ok a =>
      obtain ⟨m, hvi⟩ := @validate_input_bad_size_error element (strLower structure_type) a
        size (resolveCoverA props (strLower structure_type) c0) hn
      simp only [hvi]
      exact ⟨m, rfl⟩

theorem lookup_atomic_number {e : String} {props : ElementProperties}
    (h : List.lookup e ELEMENTS = some props) :
    aseAtomicNumber e = props.atomic_number := by
  simp only [ELEMENTS, List.lookup] at h
  repeat' split at h
  all_goals try simp at h
  all_goals rename_i heq
  all_goals rw [eq_of_beq heq]
  all_goals cases h
  all_goals decide

theorem buildAtoms_ca_irrelevant {element st : String} {a : ℝ}
    (hst : st ≠ "hcp") (c c' : Option ℝ) :
    buildAtoms element st a c = buildAtoms element st a c' := by
  unfold buildAtoms
  rw [if_neg hst, if_neg hst]

theorem assemble_ca_irrelevant {element st : String} {a : ℝ} {size : ℤ × ℤ × ℤ}
    {atoms : Atoms} (hst : st ≠ "hcp") (c c' : Option ℝ) :
    assemble element st a c size atoms = assemble element st a c' size atoms := by
  unfold assemble
  rw [if_neg hst, if_neg hst]

theorem validate_input_ca_irrelevant {element : String} {a : ℝ} {size : ℤ × ℤ × ℤ}
    (st : String) (hst : st = "fcc" ∨ st = "bcc") (c c' : Option ℝ) :
    validate_input element st a size c = validate_input element st a size c' := by
  unfold validate_input
  cases List.lookup element ELEMENTS with
  | none => rfl
  | some props =>
    rcases hst with h | h <;> subst h <;> simp +decide

theorem norm_smul_vec (k : ℝ) (v : Vec3) : (k • v).norm = |k| * v.norm := by
  unfold Vec3.norm Vec3.normSq
  simp only [Vec3.smul_x, Vec3.smul_y, Vec3.smul_z]
  rw [show k * v.x * (k * v.x) + k * v.y * (k * v.y) + k * v.z * (k * v.z)
      = k ^ 2 * (v.x * v.x + v.y * v.y + v.z * v.z) from by ring]
  rw [Real.sqrt_mul (sq_nonneg k), Real.sqrt_sq_eq_abs]

theorem hcpCell_r0_norm (a c : ℝ) (ha : 0 ≤ a) : (hcpCell a c).r0.norm = a := by
  show Vec3.norm ⟨a, 0, 0⟩ = a
  unfold Vec3.norm Vec3.normSq
  rw [show (a * a + 0 * 0 + 0 * 0 : ℝ) = a ^ 2 from by ring]
  exact Real.sqrt_sq ha

theorem hcpCell_r2_norm (a c : ℝ) (hc : 0 ≤ c) : (hcpCell a c).r2.norm = c := by
  show Vec3.norm ⟨0, 0, c⟩ = c
  unfold Vec3.norm Vec3.normSq
  rw [show (0 * 0 + 0 * 0 + c * c : ℝ) = c ^ 2 from by ring]
  exact Real.sqrt_sq hc

/-! ### The claims -/

/-- C1: every successful call to `generate_structure` returns a record
whose atom count is `basis_count(family) × nx × ny × nz` with
basis_count(fcc)=4, basis_count(bcc)=2, basis_count(hcp)=2; the replication
factors are positive, and `positions`, `numbers` and the `num_atoms`
metadata all agree on that count. -/
theorem generate_structure_atom_count {element structure_type : String}
    {lc : Option ℝ} {size : ℤ × ℤ × ℤ} {c0 : Option ℝ} {s : StructureData}
    (h : generate_structure element structure_type lc size c0 = .ok s) :
    0 < size.1 ∧ 0 < size.2.1 ∧ 0 < size.2.2 ∧
    s.positions.length = basisCount (strLower structure_type)
      * (size.1.toNat * (size.2.1.toNat * size.2.2.toNat)) ∧
    s.numbers.length = s.positions.length ∧
    s.metadata.num_atoms = s.positions.length := by
  obtain ⟨a, r, A, hp, hb, hv, hs⟩ := generate_ok_inv h
  obtain ⟨props, hel, hres, hr, hvi⟩ := prepare_ok_inv hp
  obtain ⟨ha, h1, h2, h3⟩ := validate_input_ok_pos hvi
  subst hs
  have hAlen : A.positions.length = basisCount (strLower structure_type) := by
    rcases buildAtoms_ok_inv hb with ⟨hst, rv, hrv, hA⟩ | ⟨hst, hA⟩ | ⟨hst, hA⟩ <;>
      subst hA <;> rw [hst] <;> rfl
  have hAnum : A.numbers.length = A.positions.length := by
    rcases buildAtoms_ok_inv hb with ⟨hst, rv, hrv, hA⟩ | ⟨hst, hA⟩ | ⟨hst, hA⟩ <;>
      subst hA <;> rfl
  refine ⟨h1, h2, h3, ?_, ?_, rfl⟩
  · show (A.repeatAtoms size).positions.length = _
    rw [repeatAtoms_positions_length, hAlen]
    ring
  · show (A.repeatAtoms size).numbers.length = (A.repeatAtoms size).positions.length
    rw [repeatAtoms_numbers_length, repeatAtoms_positions_length, hAnum]

/-- Witness for C1: the `Cu`/`fcc` generation at replication (1,1,1)
succeeds with 4 positions and 4 atomic numbers. -/
theorem generate_structure_atom_count_witness :
    (resultPositions (generate_structure "Cu" "fcc" none (1, 1, 1) none)).length = 4 ∧
    (resultNumbers (generate_structure "Cu" "fcc" none (1, 1, 1) none)).length = 4 := by
  obtain ⟨-, -, -, hlen, hnum, -⟩ := generate_structure_atom_count hgen_cu
  rw [hgen_cu]
  constructor
  · show cuRes.positions.length = 4
    rw [hlen]
    rfl
  · show cuRes.numbers.length = 4
    rw [hnum, hlen]
    rfl

/-- C4: for every successful generation, row i of the returned cell is the
unit-cell row i produced by the builder, scaled exactly by the i-th
replication factor. -/
theorem generate_structure_cell_scaling {element structure_type : String}
    {lc : Option ℝ} {size : ℤ × ℤ × ℤ} {c0 : Option ℝ} {s : StructureData}
    (h : generate_structure element structure_type lc size c0 = .ok s) :
    ∃ a r A, prepare element structure_type lc size c0 = .ok (a, r) ∧
      buildAtoms element (strLower structure_type) a r = .ok A ∧
      s.cell.r0 = (size.1 : ℝ) • A.cell.r0 ∧
      s.cell.r1 = (size.2.1 : ℝ) • A.cell.r1 ∧
      s.cell.r2 = (size.2.2 : ℝ) • A.cell.r2 := by
  obtain ⟨a, r, A, hp, hb, hv, hs⟩ := generate_ok_inv h
  subst hs
  exact ⟨a, r, A, hp, hb, rfl, rfl, rfl⟩

/-- Witness for C4 at `Cu`/`fcc`, replication (1,1,1). -/
theorem generate_structure_cell_scaling_witness :
    cuRes.cell.r0 = ((1 : ℤ) : ℝ) • (cubicCell 3.61).r0 := by
  obtain ⟨a, r, A, hp, hb, h0, -, -⟩ := generate_structure_cell_scaling hgen_cu
  have ha := Except.ok.inj (hp.symm.trans prepare_cu)
  injection ha with ha1 ha2
  subst ha1
  subst ha2
  have hA := Except.ok.inj (hb.symm.trans buildAtoms_cu)
  subst hA
  exact h0

/-- C5: an `hcp` request with no caller-supplied c/a ratio, for an element
whose registry entry provides no c/a default, always fails with an error;
no structure is returned. -/
theorem generate_structure_hcp_missing_ca {element : String} {props : ElementProperties}
    {lc : Option ℝ} {size : ℤ × ℤ × ℤ}
    (hel : List.lookup element ELEMENTS = some props)
    (hnone : props.hcp_parameters = none) :
    ∃ m, generate_structure element "hcp" lc size none = .error m := by
  have hca : resolveCoverA props "hcp" none = none := by
    simp +decide [resolveCoverA, hnone]
  cases hres : resolveLattice props element "hcp" lc with
  | error m =>
    refine ⟨m, prepare_error_gen ?_⟩
    unfold prepare
    simp only [hel, show strLower "hcp" = "hcp" from rfl, hres]
  | ok a =>
    obtain ⟨m, hvi⟩ := @validate_input_hcp_none_error element props a size hel hnone
    refine ⟨m, prepare_error_gen ?_⟩
    unfold prepare
    simp only [hel, show strLower "hcp" = "hcp" from rfl, hres, hca, hvi]

/-- Witness for C5: `Cu` supports only fcc and has no HCP parameters, so an
`hcp` request for it fails. -/
theorem generate_structure_hcp_missing_ca_witness :
    (generate_structure "Cu" "hcp" (some 1) (1, 1, 1) none).isOk = false := by
  have hel : List.lookup "Cu" ELEMENTS
      = some (⟨29, ["fcc"], [("fcc", 3.61)], none⟩ : ElementProperties) := by
    simp +decide [ELEMENTS, List.lookup]
  obtain ⟨m, hm⟩ := generate_structure_hcp_missing_ca hel rfl
  rw [hm]
  rfl

/-- C6: a replication tuple with a non-positive component always makes the
pre-construction phase fail: `prepare` (resolution plus `validate_input`,
everything that runs before any structure is built) returns an error, and
`generate_structure` returns that error with no structure. -/
theorem generate_structure_bad_replication {element structure_type : String}
    {lc : Option ℝ} {c0 : Option ℝ} {size : ℤ × ℤ × ℤ}
    (hn : size.1 ≤ 0 ∨ size.2.1 ≤ 0 ∨ size.2.2 ≤ 0) :
    ∃ m, prepare element structure_type lc size c0 = .error m ∧
      generate_structure element structure_type lc size c0 = .error m := by
  obtain ⟨m, hm⟩ := prepare_bad_size hn
  exact ⟨m, hm, prepare_error_gen hm⟩

/-- Witness for C6 at replication (0,1,1). -/
theorem generate_structure_bad_replication_witness :
    (generate_structure "Cu" "fcc" none (0, 1, 1) none).isOk = false ∧
    (prepare "Cu" "fcc" none (0, 1, 1) none).isOk = false := by
  obtain ⟨m, hp, hg⟩ := @generate_structure_bad_replication "Cu" "fcc" none none (0, 1, 1)
    (Or.inl (by decide))
  rw [hp, hg]
  exact ⟨rfl, rfl⟩

/-- C8: `generate_structure` is deterministic — two successful invocations
on identical inputs return identical positions, numbers and cell. -/
theorem generate_structure_deterministic {element structure_type : String}
    {lc : Option ℝ} {size : ℤ × ℤ × ℤ} {c0 : Option ℝ} {s1 s2 : StructureData}
    (h1 : generate_structure element structure_type lc size c0 = .ok s1)
    (h2 : generate_structure element structure_type lc size c0 = .ok s2) :
    s1.positions = s2.positions ∧ s1.numbers = s2.numbers ∧ s1.cell = s2.cell := by
  have h := Except.ok.inj (h1.symm.trans h2)
  rw [h]
  exact ⟨rfl, rfl, rfl⟩

/-- Witness for C8 at `Cu`/`fcc`, replication (1,1,1). -/
theorem generate_structure_deterministic_witness :
    resultPositions (generate_structure "Cu" "fcc" none (1, 1, 1) none)
      = cuRes.positions := by
  have h := generate_structure_deterministic hgen_cu hgen_cu
  rw [hgen_cu]
  exact h.1

/-- C9: every entry of the returned numbers list equals the atomic number
the element registry records for the requested element. -/
theorem generate_structure_species {element structure_type : String}
    {lc : Option ℝ} {size : ℤ × ℤ × ℤ} {c0 : Option ℝ} {s : StructureData}
    (h : generate_structure element structure_type lc size c0 = .ok s) :
    ∃ props, List.lookup element ELEMENTS = some props ∧
      ∀ z ∈ s.numbers, z = props.atomic_number := by
  obtain ⟨a, r, A, hp, hb, hv, hs⟩ := generate_ok_inv h
  obtain ⟨props, hel, -, -, -⟩ := prepare_ok_inv hp
  subst hs
  refine ⟨props, hel, ?_⟩
  intro z hz
  have hz' : z ∈ (A.repeatAtoms size).numbers := hz
  have hzA : z ∈ A.numbers := repeatAtoms_numbers_mem hz'
  have hAn : ∀ w ∈ A.numbers, w = aseAtomicNumber element := by
    rcases buildAtoms_ok_inv hb with ⟨-, rv, -, hA⟩ | ⟨-, hA⟩ | ⟨-, hA⟩ <;> subst hA <;>
      · intro w hw
        rcases List.mem_map.mp hw with ⟨f, -, rfl⟩
        rfl
  rw [hAn z hzA, lookup_atomic_number hel]

/-- Witness for C9: every atomic number of the `Cu`/`fcc` generation is 29. -/
theorem generate_structure_species_witness :
    (resultNumbers (generate_structure "Cu" "fcc" none (1, 1, 1) none)).all
      (fun z => z == 29) = true := by
  obtain ⟨props, hel, hall⟩ := generate_structure_species hgen_cu
  have hpr : props = (⟨29, ["fcc"], [("fcc", 3.61)], none⟩ : ElementProperties) := by
    have h2 : List.lookup "Cu" ELEMENTS
        = some (⟨29, ["fcc"], [("fcc", 3.61)], none⟩ : ElementProperties) := by
      simp +decide [ELEMENTS, List.lookup]
    exact Option.some.inj (hel.symm.trans h2)
  rw [hgen_cu, List.all_eq_true]
  intro z hz
  have hmem := hall z hz
  rw [hpr] at hmem
  simpa using hmem

/-- C10: for an fcc or bcc request the returned metadata `c_over_a` is
`none` whatever c/a the caller supplied, and the whole result is
independent of the supplied c/a (in particular a negative c/a is never
positivity-checked and causes no error). -/
theorem generate_structure_cubic_ca {element structure_type : String}
    {lc : Option ℝ} {size : ℤ × ℤ × ℤ} (c c' : Option ℝ)
    (hst : strLower structure_type = "fcc" ∨ strLower structure_type = "bcc") :
    generate_structure element structure_type lc size c
      = generate_structure element structure_type lc size c' ∧
    ∀ s, generate_structure element structure_type lc size c = .ok s →
      s.metadata.c_over_a = none := by
  have hstne : strLower structure_type ≠ "hcp" := by
    rcases hst with h | h <;> rw [h] <;> decide
  constructor
  · unfold generate_structure prepare
    cases hel : List.lookup element ELEMENTS with
    | none => rfl
    | some props =>
      simp only [hel]
      cases hres : resolveLattice props element (strLower structure_type) lc with
      | error m => rfl
      | ok a =>
        simp only []
        have hresolve : ∀ c'' : Option ℝ,
            resolveCoverA props (strLower structure_type) c'' = c'' := by
          intro c''
          unfold resolveCoverA
          rw [if_neg]
          rintro ⟨h1, -⟩
          exact hstne h1
        rw [hresolve c, hresolve c',
          validate_input_ca_irrelevant (strLower structure_type) hst c c']
        cases validate_input element (strLower structure_type) a size c' with
        | error m => rfl
        | ok u =>
          simp only []
          rw [buildAtoms_ca_irrelevant hstne c c']
          cases buildAtoms element (strLower structure_type) a c' with
          | error m => rfl
          | ok A =>
            simp only []
            cases validate_structure (A.repeatAtoms size) with
            | error m => rfl
            | ok u' =>
              simp only []
              rw [assemble_ca_irrelevant hstne c c']
  · intro s hs
    obtain ⟨a, r, A, hp, hb, hv, hs'⟩ := generate_ok_inv hs
    subst hs'
    show (if strLower structure_type = "hcp" then r else none) = none
    rw [if_neg hstne]

/-- Witness for C10: `Cu`/`fcc` with supplied c/a = −5 behaves exactly as
with no c/a, and its metadata c/a is `none`. -/
theorem generate_structure_cubic_ca_witness :
    generate_structure "Cu" "fcc" none (1, 1, 1) (some (-5))
      = generate_structure "Cu" "fcc" none (1, 1, 1) none ∧
    resultCoverA (generate_structure "Cu" "fcc" none (1, 1, 1) (some (-5))) = none := by
  obtain ⟨heq, hmeta⟩ := @generate_structure_cubic_ca "Cu" "fcc" none (1, 1, 1)
    (some (-5)) none (Or.inl rfl)
  refine ⟨heq, ?_⟩
  rw [heq, hgen_cu]
  exact hmeta cuRes (heq.trans hgen_cu)

/-- C7 (amended): for every successful HCP generation with isotropic
replication in the a and c directions (nx = nz, which covers the default
(2,2,2)), the ratio of the norms of cell rows 2 and 0 equals the resolved
c/a ratio exactly, in particular to within 1e-10 relative error; the
resolved ratio is the metadata `c_over_a` and is positive. -/
theorem generate_structure_hcp_ratio {element structure_type : String}
    {lc : Option ℝ} {size : ℤ × ℤ × ℤ} {c0 : Option ℝ} {s : StructureData}
    (h : generate_structure element structure_type lc size c0 = .ok s)
    (hst : strLower structure_type = "hcp") (hiso : size.1 = size.2.2) :
    ∃ rv, s.metadata.c_over_a = some rv ∧ 0 < rv ∧
      |s.cell.r2.norm / s.cell.r0.norm - rv| ≤ 1e-10 * rv := by
  obtain ⟨a, r, A, hp, hb, hv, hs⟩ := generate_ok_inv h
  obtain ⟨props, hel, hres, hr, hvi⟩ := prepare_ok_inv hp
  obtain ⟨ha, h1, h2, h3⟩ := validate_input_ok_pos hvi
  rcases buildAtoms_ok_inv hb with ⟨-, rv, hrv, hA⟩ | ⟨hfcc, -⟩ | ⟨hbcc, -⟩
  · subst hrv
    subst hA
    subst hs
    rw [hst] at hvi
    have hrvpos : 0 < rv := validate_input_ok_hcp_pos hvi
    have hn1 : (0:ℝ) < ((size.1 : ℤ) : ℝ) := by exact_mod_cast h1
    have hn3 : (0:ℝ) < ((size.2.2 : ℤ) : ℝ) := by exact_mod_cast h3
    refine ⟨rv, ?_, hrvpos, ?_⟩
    · show (if strLower structure_type = "hcp" then some rv else none) = some rv
      rw [if_pos hst]
    · have e0 : Vec3.norm (((size.1 : ℤ) : ℝ) • (hcpCell a (a * rv)).r0)
          = ((size.1 : ℤ) : ℝ) * a := by
        rw [norm_smul_vec, hcpCell_r0_norm a (a * rv) ha.le, abs_of_pos hn1]
      have e2 : Vec3.norm (((size.2.2 : ℤ) : ℝ) • (hcpCell a (a * rv)).r2)
          = ((size.2.2 : ℤ) : ℝ) * (a * rv) := by
        rw [norm_smul_vec, hcpCell_r2_norm a (a * rv) (by positivity), abs_of_pos hn3]
      show |Vec3.norm (((size.2.2 : ℤ) : ℝ) • (hcpCell a (a * rv)).r2)
          / Vec3.norm (((size.1 : ℤ) : ℝ) • (hcpCell a (a * rv)).r0) - rv| ≤ 1e-10 * rv
      rw [e0, e2, hiso]
      have hratio : ((size.2.2 : ℤ) : ℝ) * (a * rv) / (((size.2.2 : ℤ) : ℝ) * a) = rv := by
        rw [hiso] at hn1
        field_simp
        ring
      rw [hratio, sub_self, abs_zero]
      positivity
  · exact absurd (hst.symm.trans hfcc) (by decide)
  · exact absurd (hst.symm.trans hbcc) (by decide)

/-- Witness for the amended C7: `Ti`/`hcp` at replication (1,1,1) has cell
row-norm ratio within 1e-10 of the registry default 1.587. -/
theorem generate_structure_hcp_ratio_witness :
    |resultRowRatio (generate_structure "Ti" "hcp" none (1, 1, 1) none) - 1.587|
      ≤ 1e-10 * 1.587 := by
  obtain ⟨rv, hm, hpos, hb⟩ := generate_structure_hcp_ratio hgen_ti111 rfl rfl
  have h2 : tiRes111.metadata.c_over_a = some 1.587 := by
    show (if strLower "hcp" = "hcp" then some (1.587 : ℝ) else none) = some 1.587
    rw [if_pos (show strLower "hcp" = "hcp" from rfl)]
  have hrv : rv = 1.587 := Option.some.inj (hm.symm.trans h2)
  rw [hgen_ti111]
  show |tiRes111.cell.r2.norm / tiRes111.cell.r0.norm - 1.587| ≤ 1e-10 * 1.587
  rw [← hrv]
  exact hb

/-- C7 counterexample: the `Ti`/`hcp` generation at replication (1,1,2)
succeeds with resolved c/a ratio 1.587, yet the ratio of the norms of the
returned cell rows 2 and 0 is 2 × 1.587, which is not within 1e-10
relative error of 1.587 — the claim fails for anisotropic replication. -/
theorem generate_structure_ratio_cex :
    (generate_structure "Ti" "hcp" none (1, 1, 2) none).isOk = true ∧
    resultCoverA (generate_structure "Ti" "hcp" none (1, 1, 2) none) = some 1.587 ∧
    ¬ |resultRowRatio (generate_structure "Ti" "hcp" none (1, 1, 2) none) - 1.587|
        ≤ 1e-10 * 1.587 := by
  refine ⟨by rw [hgen_ti112]; rfl, ?_, ?_⟩
  · rw [hgen_ti112]
    show (if strLower "hcp" = "hcp" then some (1.587 : ℝ) else none) = some 1.587
    rw [if_pos (show strLower "hcp" = "hcp" from rfl)]
  · rw [hgen_ti112]
    have e0 : Vec3.norm (((1 : ℤ) : ℝ) • (hcpCell 2.95 (2.95 * 1.587)).r0)
        = ((1 : ℤ) : ℝ) * 2.95 := by
      rw [norm_smul_vec, hcpCell_r0_norm 2.95 (2.95 * 1.587) (by norm_num),
        abs_of_pos (by norm_num)]
    have e2 : Vec3.norm (((2 : ℤ) : ℝ) • (hcpCell 2.95 (2.95 * 1.587)).r2)
        = ((2 : ℤ) : ℝ) * (2.95 * 1.587) := by
      rw [norm_smul_vec, hcpCell_r2_norm 2.95 (2.95 * 1.587) (by norm_num),
        abs_of_pos (by norm_num)]
    show ¬ |Vec3.norm (((2 : ℤ) : ℝ) • (hcpCell 2.95 (2.95 * 1.587)).r2)
        / Vec3.norm (((1 : ℤ) : ℝ) • (hcpCell 2.95 (2.95 * 1.587)).r0) - 1.587|
        ≤ 1e-10 * 1.587
    rw [e0, e2, show ((2 : ℤ) : ℝ) * (2.95 * 1.587) / (((1 : ℤ) : ℝ) * 2.95) - 1.587
      = 1.587 from by norm_num]
    rw [abs_of_pos (show (0:ℝ) < 1.587 from by norm_num)]
    norm_num

theorem get_scaled_positions_error_msg {atoms : Atoms} {m : String}
    (h : atoms.get_scaled_positions = .error m) :
    m = "LinAlgError: Singular matrix" := by
  unfold Atoms.get_scaled_positions at h
  split_ifs at h
  exact (Except.error.inj h).symm

/-- C2 counterexample: `outsideAtoms` is a fully periodic structure whose
single atom has fractional x-coordinate 3/2 ∉ [0,1], yet
`validate_structure` returns normally — `get_scaled_positions` wraps the
coordinate to 1/2 before the bounds check, so the claimed atom-outside
error is not raised. -/
theorem validate_structure_wrap_cex :
    outsideAtoms.positions = [⟨3/2, 0, 0⟩] ∧
    (mulRow ⟨3/2, 0, 0⟩ outsideAtoms.cell.inv).x = 3/2 ∧
    ¬ ((3:ℝ)/2 ≤ 1) ∧
    validate_structure outsideAtoms = .ok () := by
  refine ⟨rfl, ?_, by norm_num, validate_structure_ok_of_periodic outsideAtoms rfl ?_⟩
  · show (mulRow ⟨3/2, 0, 0⟩ (cubicCell 1).inv).x = 3/2
    unfold mulRow Mat3.inv Mat3.det cubicCell
    norm_num
  · show (cubicCell 1).det ≠ 0
    rw [det_cubicCell]
    norm_num

/-- C2 (amended): `validate_structure` compares the wrapped fractional
coordinates — along each periodic axis the coordinate is reduced mod 1
before the [0,1] bounds check.  For a fully periodic structure over a cell
with no zero row (the only kind this program builds, and the domain on
which the embedding of `get_scaled_positions` is faithful) it consequently
never reports an atom outside the cell: it returns normally whenever the
cell is non-degenerate — whatever the raw fractional coordinates — and
fails with the singular-matrix error otherwise.  The return-normally half
of the original claim holds; the raise half does not. -/
theorem validate_structure_periodic_wrap (atoms : Atoms)
    (hpbc : atoms.pbc = (true, true, true))
    (h0 : atoms.cell.r0 ≠ ⟨0, 0, 0⟩) (h1 : atoms.cell.r1 ≠ ⟨0, 0, 0⟩)
    (h2 : atoms.cell.r2 ≠ ⟨0, 0, 0⟩) :
    validate_structure atoms = .ok ()
      ∨ validate_structure atoms = .error "LinAlgError: Singular matrix" := by
  by_cases hdet : atoms.cell.det = 0
  · right
    have hsc : atoms.get_scaled_positions = .error "LinAlgError: Singular matrix" := by
      unfold Atoms.get_scaled_positions
      rw [if_pos hdet]
    unfold validate_structure
    rw [hsc]
  · exact Or.inl (validate_structure_ok_of_periodic atoms hpbc hdet)

/-- Witness for the amended C2 at `outsideAtoms`. -/
theorem validate_structure_periodic_wrap_witness :
    validate_structure outsideAtoms = .ok ()
      ∨ validate_structure outsideAtoms = .error "LinAlgError: Singular matrix" := by
  refine validate_structure_periodic_wrap outsideAtoms rfl ?_ ?_ ?_
  all_goals simp [outsideAtoms, cubicCell, Vec3.mk.injEq]

/-- C3 counterexample: the cell of `parallelAtoms` has two parallel rows,
so its third derived angle is 0°, outside (0°, 180°]; the claim predicts
the angle-out-of-range error, but `validate_structure` fails with the
singular-matrix error from the fractional-coordinate computation instead —
the angle check (which tests only |angle| > 180) is never reached and would
not reject 0° anyway. -/
theorem validate_structure_angle_cex :
    (cell_to_cellpar parallelAtoms.cell).2.2.2 = 0 ∧
    validate_structure parallelAtoms = .error "LinAlgError: Singular matrix" ∧
    validate_structure parallelAtoms
      ≠ .error "Invalid cell parameters: angles must be between 0 and 180 degrees" := by
  have hdet : parallelAtoms.cell.det = 0 := by
    show Mat3.det ⟨⟨1, 0, 0⟩, ⟨1, 0, 0⟩, ⟨0, 0, 1⟩⟩ = 0
    unfold Mat3.det
    norm_num
  have hval : validate_structure parallelAtoms = .error "LinAlgError: Singular matrix" := by
    have hsc : parallelAtoms.get_scaled_positions
        = .error "LinAlgError: Singular matrix" := by
      unfold Atoms.get_scaled_positions
      rw [if_pos hdet]
    unfold validate_structure
    rw [hsc]
  refine ⟨?_, hval, ?_⟩
  · show angleDeg ⟨1, 0, 0⟩ ⟨1, 0, 0⟩ = 0
    have hn : Vec3.norm ⟨1, 0, 0⟩ = 1 := by
      unfold Vec3.norm Vec3.normSq
      norm_num
    unfold angleDeg
    rw [hn]
    rw [if_pos (by norm_num)]
    unfold Vec3.dot
    norm_num [Real.arccos_one]
  · rw [hval]
    simp

/-- C3 (amended): the angle check in `validate_structure` rejects only
angles exceeding 180° in absolute value, and the angles that
`cell_to_cellpar` derives always lie in [0°, 180°], so the validator never
returns the angle-out-of-range error on any input; a configuration with a
0° angle fails earlier, through the singular-matrix error of the
fractional-coordinate computation, not through the angle check. -/
theorem validate_structure_no_angle_error (atoms : Atoms) :
    validate_structure atoms
      ≠ .error "Invalid cell parameters: angles must be between 0 and 180 degrees" := by
  intro hcon
  unfold validate_structure at hcon
  cases hsc : atoms.get_scaled_positions with
  | error m =>
    simp only [hsc] at hcon
    have hm := get_scaled_positions_error_msg hsc
    rw [hm] at hcon
    exact absurd (Except.error.inj hcon) (by decide)
  | ok scaled =>
    simp only [hsc] at hcon
    split_ifs at hcon with hb hl hang
    · exact absurd (Except.error.inj hcon) (by decide)
    · rcases hang with hx | hx | hx <;> exact absurd hx (not_lt.mpr (angleDeg_abs_le _ _))
    · exact absurd (Except.error.inj hcon) (by decide)

end CrystalGen
